import Mathlib

/-!
# Firmware Auto-Healer: the client shell of `src/App.js`

A shallow embedding of the React component `FirmwareHealerApp`: its five
`useState` cells, the three asynchronous submit handlers, the click handlers
and the parts of the rendered tree that depend on the state.

An `async` handler is split at its suspension point.  The part that runs
synchronously inside the DOM event is the `...Sync` function; it may leave a
handler suspended at `await fetch(...)`.  The part that runs when the awaited
promises settle is the `...Resume` function; it acts on whatever the state is
at that moment, because the React setters write into the current state.
-/

namespace FirmwareHealer

/-! ## Values -/

/-- A JavaScript value as produced by `response.json()` or by an object
literal.  A number is `mantissa * 10 ^ exponent`. -/
inductive Json where
  | null
  | bool (b : Bool)
  | num (mantissa : Int) (exponent : Int)
  | str (s : String)
  | arr (items : List Json)
  | obj (fields : List (String × Json))

/-- An integer literal such as `94`. -/
def Json.int (n : Int) : Json := Json.num n 0

/-- Property access `v.key` on an object value; `none` stands for `undefined`. -/
def Json.get? : Json → String → Option Json
  | Json.obj fields, key => (fields.find? (fun kv => kv.1 == key)).map (fun kv => kv.2)
  | _, _ => none

/-- A `File` taken from `e.target.files`. -/
structure File where
  name : String
  bytes : List Nat

/-- The object handed to `setResults`: `{ type, data, filename }`. -/
structure Results where
  type : String
  data : Json
  filename : String

/-! ## Component state -/

/-- The five `useState` cells of `FirmwareHealerApp`. -/
structure State where
  activeTab : String
  loading : Bool
  results : Option Results
  jiraDescription : String
  jiraResults : Option Json

/-- The initial values passed to `useState`. -/
def State.init : State :=
  { activeTab := "dashboard"
    loading := false
    results := none
    jiraDescription := ""
    jiraResults := none }

def setActiveTab (tab : String) (s : State) : State := { s with activeTab := tab }

def setLoading (b : Bool) (s : State) : State := { s with loading := b }

def setResults (r : Option Results) (s : State) : State := { s with results := r }

def setJiraDescription (text : String) (s : State) : State := { s with jiraDescription := text }

def setJiraResults (r : Option Json) (s : State) : State := { s with jiraResults := r }

/-! ## The collaborator boundary -/

/-- The body of a `fetch` call. -/
inductive Body where
  | formData (fields : List (String × File))
  | jsonText (value : Json)

/-- The arguments of a `fetch` call. -/
structure Request where
  url : String
  method : String
  headers : List (String × String)
  body : Body

/-- How the two awaits of a `try` block, `await fetch(...)` and
`await response.json()`, come out.  The status of a received response is
carried along; the handlers never read it. -/
inductive FetchOutcome where
  | rejected
  | badBody (status : Nat)
  | parsed (status : Nat) (data : Json)

/-- Whether the `try` block throws, so that the `catch` block runs. -/
def FetchOutcome.threw : FetchOutcome → Bool
  | FetchOutcome.rejected => true
  | FetchOutcome.badBody _ => true
  | FetchOutcome.parsed _ _ => false

/-- A handler suspended at its `await`, with the variables its closure holds. -/
inductive Pending where
  | logUpload (file : File)
  | jiraSubmit (description : String)
  | codeUpload (file : File)

/-- The `fetch` call a suspended handler has made. -/
def Pending.request : Pending → Request
  | Pending.logUpload file =>
      { url := "/api/analyze-log", method := "POST", headers := [],
        body := Body.formData [("file", file)] }
  | Pending.jiraSubmit description =>
      { url := "/api/analyze-jira", method := "POST",
        headers := [("Content-Type", "application/json")],
        body := Body.jsonText (Json.obj [("description", Json.str description)]) }
  | Pending.codeUpload file =>
      { url := "/api/correct-code", method := "POST", headers := [],
        body := Body.formData [("file", file)] }

/-! ## Demo data of the `catch` blocks -/

def logDemoData : Json :=
  Json.obj
    [ ("rootCause", Json.str "Memory allocation failure in bootloader module"),
      ("reproductionSteps", Json.arr
        [ Json.str "Initialize system with low memory configuration",
          Json.str "Trigger firmware update sequence",
          Json.str "Monitor memory allocation during boot phase" ]),
      ("suggestedFix", Json.str "Increase heap size allocation in bootloader config by 512KB"),
      ("confidence", Json.int 94) ]

def jiraDemoData : Json :=
  Json.obj
    [ ("summary", Json.str "Critical firmware boot failure due to memory corruption in bootloader. Issue affects v2.1.x builds on ARM-based devices."),
      ("similarIssues", Json.arr
        [ Json.obj
            [ ("id", Json.str "FW-1234"),
              ("title", Json.str "Bootloader memory leak in v2.0"),
              ("similarity", Json.int 92) ],
          Json.obj
            [ ("id", Json.str "FW-5678"),
              ("title", Json.str "ARM device boot failure pattern"),
              ("similarity", Json.int 87) ],
          Json.obj
            [ ("id", Json.str "FW-9012"),
              ("title", Json.str "Memory corruption during OTA update"),
              ("similarity", Json.int 81) ] ]) ]

def codeDemoData : Json :=
  Json.obj
    [ ("issuesFound", Json.int 3),
      ("corrections", Json.arr
        [ Json.obj
            [ ("line", Json.int 42),
              ("issue", Json.str "Buffer overflow risk"),
              ("fix", Json.str "Add bounds checking before memcpy") ],
          Json.obj
            [ ("line", Json.int 78),
              ("issue", Json.str "Uninitialized pointer"),
              ("fix", Json.str "Initialize ptr to NULL") ],
          Json.obj
            [ ("line", Json.int 105),
              ("issue", Json.str "Memory leak"),
              ("fix", Json.str "Add free() call before function return") ] ]),
      ("fixedCode", Json.str "// Corrected code would appear here...") ]

/-! ## String.prototype.trim -/

/-- The code points `trim` strips: ECMAScript WhiteSpace and LineTerminator. -/
def isJsWhiteSpace (c : Char) : Bool :=
  let n := c.toNat
  n == 0x09 || n == 0x0A || n == 0x0B || n == 0x0C || n == 0x0D || n == 0x20 ||
  n == 0xA0 || n == 0x1680 || (0x2000 ≤ n && n ≤ 0x200A) ||
  n == 0x2028 || n == 0x2029 || n == 0x202F || n == 0x205F || n == 0x3000 || n == 0xFEFF

/-- The characters of `text.trim()`. -/
def jsTrim (text : String) : List Char :=
  ((text.toList.dropWhile isJsWhiteSpace).reverse.dropWhile isJsWhiteSpace).reverse

/-- The test `!text.trim()`: the trimmed string is empty, hence falsy. -/
def trimIsEmpty (text : String) : Bool := (jsTrim text).isEmpty

/-! ## Handlers -/

/-- The synchronous part of `handleLogUpload`, with `file = e.target.files[0]`. -/
def handleLogUploadSync (file : Option File) (s : State) : State × Option Pending :=
  match file with
  | none => (s, none)
  | some file => (setLoading true s, some (Pending.logUpload file))

/-- The rest of `handleLogUpload`: `try` or `catch`, then `finally`. -/
def handleLogUploadResume (file : File) (o : FetchOutcome) (s : State) : State :=
  let s1 :=
    match o with
    | FetchOutcome.parsed _ data =>
        setResults (some { type := "log", data := data, filename := file.name }) s
    | _ =>
        setResults (some { type := "log", filename := file.name, data := logDemoData }) s
  setLoading false s1

/-- The synchronous part of `handleJiraSubmit`. -/
def handleJiraSubmitSync (s : State) : State × Option Pending :=
  if trimIsEmpty s.jiraDescription then (s, none)
  else (setLoading true s, some (Pending.jiraSubmit s.jiraDescription))

/-- The rest of `handleJiraSubmit`. -/
def handleJiraSubmitResume (o : FetchOutcome) (s : State) : State :=
  let s1 :=
    match o with
    | FetchOutcome.parsed _ data => setJiraResults (some data) s
    | _ => setJiraResults (some jiraDemoData) s
  setLoading false s1

/-- The synchronous part of `handleCodeUpload`. -/
def handleCodeUploadSync (file : Option File) (s : State) : State × Option Pending :=
  match file with
  | none => (s, none)
  | some file => (setLoading true s, some (Pending.codeUpload file))

/-- The rest of `handleCodeUpload`. -/
def handleCodeUploadResume (file : File) (o : FetchOutcome) (s : State) : State :=
  let s1 :=
    match o with
    | FetchOutcome.parsed _ data =>
        setResults (some { type := "code", data := data, filename := file.name }) s
    | _ =>
        setResults (some { type := "code", filename := file.name, data := codeDemoData }) s
  setLoading false s1

/-- The continuation of a suspended handler. -/
def Pending.resume : Pending → FetchOutcome → State → State
  | Pending.logUpload file, o, s => handleLogUploadResume file o s
  | Pending.jiraSubmit _, o, s => handleJiraSubmitResume o s
  | Pending.codeUpload file, o, s => handleCodeUploadResume file o s

/-- A handler run from its event to its end with nothing else in between. -/
def runToEnd (sync : State × Option Pending) (o : FetchOutcome) : State :=
  match sync.2 with
  | none => sync.1
  | some p => p.resume o sync.1

def handleLogUpload (file : Option File) (o : FetchOutcome) (s : State) : State :=
  runToEnd (handleLogUploadSync file s) o

def handleJiraSubmit (o : FetchOutcome) (s : State) : State :=
  runToEnd (handleJiraSubmitSync s) o

def handleCodeUpload (file : Option File) (o : FetchOutcome) (s : State) : State :=
  runToEnd (handleCodeUploadSync file s) o

/-- The `onClose` handler given to `ResultsDisplay`: `() => setResults(null)`. -/
def onClose (s : State) : State := setResults none s

/-- The `onClick` of the Jira card: `() => setActiveTab("jira")`. -/
def openAnalyzerClick (s : State) : State := setActiveTab "jira" s

/-- The `onClick` of the back button: `() => setActiveTab("dashboard")`. -/
def backToDashboardClick (s : State) : State := setActiveTab "dashboard" s

/-! ## Rendering

The rendered tree is kept as far as it depends on the state: captions, the
spinner, `disabled` attributes, which panels are present and the text nodes
they show.  A component can throw while it renders: on reading a property of
`null` or `undefined`, on calling `.map` on a value that is not an array, or
when React is handed an object as a child. -/

/-- JavaScript truthiness, as tested by `value && (...)`. -/
def Json.truthy : Json → Bool
  | Json.null => false
  | Json.bool b => b
  | Json.num mantissa _ => mantissa != 0
  | Json.str s => s != ""
  | Json.arr _ => true
  | Json.obj _ => true

/-- The expression `v.key`, with `none` for `undefined`.  It throws on `null`
and `undefined`.  None of the keys the components read is a member of a
built-in prototype, so only the own fields of an object answer. -/
def readProp (v : Option Json) (key : String) : Except String (Option Json) :=
  match v with
  | none => Except.error "TypeError: cannot read properties of undefined"
  | some Json.null => Except.error "TypeError: cannot read properties of null"
  | some w => Except.ok (w.get? key)

/-- The receiver of `v.map(...)`: its elements, or a throw when `v` is not an
array. -/
def arrayItems (v : Option Json) : Except String (List Json) :=
  match v with
  | some (Json.arr items) => Except.ok items
  | _ => Except.error "TypeError: map is not a function"

mutual
/-- The text nodes React makes of a child `{v}`: none for `null` and booleans,
one for a string or a number, those of the elements for an array; an object
is not a valid child. -/
def childNodes : Json → Except String (List Json)
  | Json.null => Except.ok []
  | Json.bool _ => Except.ok []
  | Json.num mantissa exponent => Except.ok [Json.num mantissa exponent]
  | Json.str s => Except.ok [Json.str s]
  | Json.arr items => childNodesList items
  | Json.obj _ => Except.error "Objects are not valid as a React child"
/-- The text nodes of the elements of an array child. -/
def childNodesList : List Json → Except String (List Json)
  | [] => Except.ok []
  | v :: vs =>
      match childNodes v with
      | Except.error e => Except.error e
      | Except.ok first =>
          match childNodesList vs with
          | Except.error e => Except.error e
          | Except.ok others => Except.ok (first ++ others)
end

/-- The text nodes of a child that may be `undefined`, which renders nothing. -/
def childOf (v : Option Json) : Except String (List Json) :=
  match v with
  | none => Except.ok []
  | some w => childNodes w

/-- Runs `f` over a list and stops at the first throw. -/
def mapThrowing {α β : Type} (f : α → Except String β) : List α → Except String (List β)
  | [] => Except.ok []
  | x :: xs =>
      match f x with
      | Except.error e => Except.error e
      | Except.ok y =>
          match mapThrowing f xs with
          | Except.error e => Except.error e
          | Except.ok ys => Except.ok (y :: ys)

/-- What a `FeatureCard` renders: either the "Open Analyzer" button or the
upload label with its hidden file input. -/
structure CardTree where
  title : String
  description : String
  isButton : Bool
  caption : String
  spinner : Bool
  inputDisabled : Option Bool
  accept : Option String
deriving DecidableEq

/-- The component `FeatureCard`; `loading` is the prop of that name. -/
def FeatureCard (title description : String) (acceptedFiles : Option String)
    (isButton loading : Bool) : CardTree :=
  if isButton then
    { title := title, description := description, isButton := true,
      caption := "Open Analyzer", spinner := false, inputDisabled := none, accept := none }
  else
    { title := title, description := description, isButton := false,
      caption := if loading then "Analyzing..." else "Upload File",
      spinner := loading, inputDisabled := some loading, accept := acceptedFiles }

/-- The log section of `ResultsDisplay`: the text nodes of the root cause, the
confidence, each reproduction step and the suggested fix. -/
structure LogSectionTree where
  rootCause : List Json
  confidence : List Json
  steps : List (List Json)
  suggestedFix : List Json

/-- One entry of the corrections list. -/
structure CorrectionTree where
  line : List Json
  issue : List Json
  fix : List Json

/-- The code section of `ResultsDisplay`. -/
structure CodeSectionTree where
  issuesFound : List Json
  corrections : List CorrectionTree

/-- What `ResultsDisplay` renders: the file line and the section chosen by
`results.type`. -/
structure PanelTree where
  heading : String
  fileLine : String
  logSection : Option LogSectionTree
  codeSection : Option CodeSectionTree

/-- The block under `results.type === "log" && (...)`. -/
def renderLogSection (data : Json) : Except String LogSectionTree := do
  let rootCause ← readProp (some data) "rootCause"
  let confidence ← readProp (some data) "confidence"
  let reproductionSteps ← readProp (some data) "reproductionSteps"
  let steps ← arrayItems reproductionSteps
  let suggestedFix ← readProp (some data) "suggestedFix"
  let rootCauseNodes ← childOf rootCause
  let confidenceNodes ← childOf confidence
  let stepNodes ← mapThrowing childNodes steps
  let suggestedFixNodes ← childOf suggestedFix
  pure { rootCause := rootCauseNodes, confidence := confidenceNodes,
         steps := stepNodes, suggestedFix := suggestedFixNodes }

/-- The body of the callback given to `corrections.map`. -/
def renderCorrection (correction : Json) : Except String (Option Json × Option Json × Option Json) := do
  let line ← readProp (some correction) "line"
  let issue ← readProp (some correction) "issue"
  let fix ← readProp (some correction) "fix"
  pure (line, issue, fix)

/-- The children of one corrections entry, as React mounts them. -/
def mountCorrection (entry : Option Json × Option Json × Option Json) :
    Except String CorrectionTree := do
  let line ← childOf entry.1
  let issue ← childOf entry.2.1
  let fix ← childOf entry.2.2
  pure { line := line, issue := issue, fix := fix }

/-- The block under `results.type === "code" && (...)`. -/
def renderCodeSection (data : Json) : Except String CodeSectionTree := do
  let issuesFound ← readProp (some data) "issuesFound"
  let corrections ← readProp (some data) "corrections"
  let items ← arrayItems corrections
  let entries ← mapThrowing renderCorrection items
  let issuesFoundNodes ← childOf issuesFound
  let correctionTrees ← mapThrowing mountCorrection entries
  pure { issuesFound := issuesFoundNodes, corrections := correctionTrees }

/-- The component `ResultsDisplay`; an error is a throw during its render. -/
def ResultsDisplay (results : Results) : Except String PanelTree := do
  let logSection ←
    if results.type == "log" then (renderLogSection results.data).map some else pure none
  let codeSection ←
    if results.type == "code" then (renderCodeSection results.data).map some else pure none
  pure { heading := "Analysis Results"
         fileLine := "File: " ++ results.filename
         logSection := logSection
         codeSection := codeSection }

/-- What `DashboardView` renders.  The results panel is absent, or is what
`ResultsDisplay` returned or threw. -/
structure DashboardTree where
  logCard : CardTree
  jiraCard : CardTree
  codeCard : CardTree
  resultsPanel : Option (Except String PanelTree)

/-- The expression `results?.type === kind`. -/
def resultsTypeIs (results : Option Results) (kind : String) : Bool :=
  match results with
  | none => false
  | some r => r.type == kind

/-- The component `DashboardView`. -/
def DashboardView (s : State) : DashboardTree :=
  { logCard :=
      FeatureCard "Log Analyzer"
        "Upload firmware logs to detect root causes and get reproduction steps"
        (some ".log,.txt") false (s.loading && resultsTypeIs s.results "log")
    jiraCard :=
      FeatureCard "Jira Analyzer"
        "Analyze Jira issues to find patterns and similar problems"
        none true false
    codeCard :=
      FeatureCard "Syntax Corrector"
        "Upload code files to detect and fix syntax errors automatically"
        (some ".c,.cpp,.h,.py") false (s.loading && resultsTypeIs s.results "code")
    resultsPanel := s.results.map ResultsDisplay }

/-- One entry of the similar-issues list. -/
structure SimilarIssueTree where
  id : List Json
  title : List Json
  similarity : List Json

/-- The summary and the similar-issues list of the Jira view. -/
structure JiraPanelTree where
  summary : List Json
  similarIssues : List SimilarIssueTree

/-- What `jiraResults && (...)` leaves in the tree: for a falsy `jiraResults`
the value itself as a child, otherwise the panel or the throw of its render. -/
inductive GuardedPanel where
  | skipped (value : Json)
  | panel (tree : Except String JiraPanelTree)

/-- The body of the callback given to `similarIssues.map`. -/
def renderSimilarIssue (issue : Json) : Except String (Option Json × Option Json × Option Json) := do
  let id ← readProp (some issue) "id"
  let title ← readProp (some issue) "title"
  let similarity ← readProp (some issue) "similarity"
  pure (id, title, similarity)

/-- The children of one similar-issues entry, as React mounts them. -/
def mountSimilarIssue (entry : Option Json × Option Json × Option Json) :
    Except String SimilarIssueTree := do
  let id ← childOf entry.1
  let title ← childOf entry.2.1
  let similarity ← childOf entry.2.2
  pure { id := id, title := title, similarity := similarity }

/-- The block under `jiraResults && (...)`, for a truthy `jiraResults`. -/
def renderJiraPanel (jiraResults : Json) : Except String JiraPanelTree := do
  let summary ← readProp (some jiraResults) "summary"
  let similarIssues ← readProp (some jiraResults) "similarIssues"
  let items ← arrayItems similarIssues
  let entries ← mapThrowing renderSimilarIssue items
  let summaryNodes ← childOf summary
  let issueTrees ← mapThrowing mountSimilarIssue entries
  pure { summary := summaryNodes, similarIssues := issueTrees }

/-- The expression `jiraResults && (...)`; the initial `null` of the cell and
a parsed body that is `null` are the same value here. -/
def guardedJiraPanel (jiraResults : Option Json) : GuardedPanel :=
  match jiraResults with
  | none => GuardedPanel.skipped Json.null
  | some v => if v.truthy then GuardedPanel.panel (renderJiraPanel v) else GuardedPanel.skipped v

/-- What `JiraView` renders. -/
structure JiraTree where
  textareaValue : String
  buttonDisabled : Bool
  buttonCaption : String
  buttonSpinner : Bool
  resultsPanel : GuardedPanel

/-- The component `JiraView`. -/
def JiraView (s : State) : JiraTree :=
  { textareaValue := s.jiraDescription
    buttonDisabled := s.loading || trimIsEmpty s.jiraDescription
    buttonCaption := if s.loading then "Analyzing..." else "Analyze Issue"
    buttonSpinner := s.loading
    resultsPanel := guardedJiraPanel s.jiraResults }

/-- The tree returned by `FirmwareHealerApp`. -/
inductive View where
  | dashboard (tree : DashboardTree)
  | jira (tree : JiraTree)

/-- The last line of `FirmwareHealerApp`:
`activeTab === "dashboard" ? <DashboardView /> : <JiraView />`. -/
def render (s : State) : View :=
  if s.activeTab == "dashboard" then View.dashboard (DashboardView s)
  else View.jira (JiraView s)

/-- Whether rendering the tree threw.  There is no error boundary, so React
then shows nothing: no control of the tree can be used. -/
def View.throws : View → Bool
  | View.dashboard tree =>
      match tree.resultsPanel with
      | some (Except.error _) => true
      | _ => false
  | View.jira tree =>
      match tree.resultsPanel with
      | GuardedPanel.panel (Except.error _) => true
      | _ => false

/-! ## The session as a transition system

A session is the component state together with the handlers that are
suspended at an `await`.  An event is a DOM event on a control of the
rendered tree, or the settling of one suspended handler. -/

structure Session where
  state : State
  inflight : List Pending

def Session.init : Session := { state := State.init, inflight := [] }

inductive Event where
  | logFileChange (file : Option File)
  | codeFileChange (file : Option File)
  | openAnalyzer
  | backToDashboard
  | descriptionChange (text : String)
  | analyzeIssueClick
  | closeResults
  | settle (index : Nat) (o : FetchOutcome)

/-- Whether the tree offers the control of a DOM event and it is not disabled. -/
def controlEnabled (view : View) : Event → Bool
  | Event.logFileChange _ =>
      match view with
      | View.dashboard tree => tree.logCard.inputDisabled == some false
      | View.jira _ => false
  | Event.codeFileChange _ =>
      match view with
      | View.dashboard tree => tree.codeCard.inputDisabled == some false
      | View.jira _ => false
  | Event.openAnalyzer =>
      match view with
      | View.dashboard tree => tree.jiraCard.isButton
      | View.jira _ => false
  | Event.backToDashboard =>
      match view with
      | View.dashboard _ => false
      | View.jira _ => true
  | Event.descriptionChange _ =>
      match view with
      | View.dashboard _ => false
      | View.jira _ => true
  | Event.analyzeIssueClick =>
      match view with
      | View.dashboard _ => false
      | View.jira tree => !tree.buttonDisabled
  | Event.closeResults =>
      match view with
      | View.dashboard tree => tree.resultsPanel.isSome
      | View.jira _ => false
  | Event.settle _ _ => false

/-- Whether an event can happen: a suspended handler can always settle; a DOM
event needs a render that did not throw and an enabled control.  A later
settle may bring back a state whose render does not throw; the runs then
allow more than React does, which no longer shows the tree. -/
def enabled (σ : Session) (e : Event) : Bool :=
  match e with
  | Event.settle index _ => decide (index < σ.inflight.length)
  | _ => !(render σ.state).throws && controlEnabled (render σ.state) e

/-- Adds the handler a synchronous part has left suspended. -/
def Session.afterSync (σ : Session) (sync : State × Option Pending) : Session :=
  { state := sync.1, inflight := σ.inflight ++ sync.2.toList }

/-- The effect of an event that is enabled. -/
def fire (σ : Session) : Event → Session
  | Event.logFileChange file => σ.afterSync (handleLogUploadSync file σ.state)
  | Event.codeFileChange file => σ.afterSync (handleCodeUploadSync file σ.state)
  | Event.openAnalyzer => { σ with state := openAnalyzerClick σ.state }
  | Event.backToDashboard => { σ with state := backToDashboardClick σ.state }
  | Event.descriptionChange text => { σ with state := setJiraDescription text σ.state }
  | Event.analyzeIssueClick => σ.afterSync (handleJiraSubmitSync σ.state)
  | Event.closeResults => { σ with state := onClose σ.state }
  | Event.settle index o =>
      match σ.inflight.get? index with
      | none => σ
      | some p => { state := p.resume o σ.state, inflight := σ.inflight.eraseIdx index }

/-- One step; `none` when the event is not enabled. -/
def step (σ : Session) (e : Event) : Option Session :=
  if enabled σ e then some (fire σ e) else none

/-- A run of events, from left to right. -/
def run : Session → List Event → Option Session
  | σ, [] => some σ
  | σ, e :: es =>
      match step σ e with
      | none => none
      | some σ1 => run σ1 es

/-- Whether a request has been dispatched and has not yet settled. -/
def Session.outstanding (σ : Session) : Bool := !σ.inflight.isEmpty

/-- Whether no state visited by the run has two requests in flight. -/
def neverOverlaps : Session → List Event → Bool
  | σ, [] => decide (σ.inflight.length ≤ 1)
  | σ, e :: es =>
      decide (σ.inflight.length ≤ 1) &&
        match step σ e with
        | none => true
        | some σ1 => neverOverlaps σ1 es

/-- A failure in the words of the specification: a transport error, a response
body that does not parse, or a response with a 4xx or 5xx status. -/
def specFailure : FetchOutcome → Bool
  | FetchOutcome.rejected => true
  | FetchOutcome.badBody _ => true
  | FetchOutcome.parsed status _ => decide (400 ≤ status) && decide (status ≤ 599)

/-! ## Fallback payloads -/

/-- C1: when the log-analysis call throws (transport error or unparsable body),
`handleLogUpload` stores exactly kind log, the file's name, and the demo root
cause, three ordered reproduction steps, suggested fix and confidence 94,
whatever the state was before and whatever it is when the handler resumes. -/
theorem handleLogUpload_failure_stores_demo (s : State) (file : File) (o : FetchOutcome)
    (h : o.threw = true) :
    (handleLogUpload (some file) o s).results =
        some { type := "log", filename := file.name,
               data := Json.obj
                 [ ("rootCause", Json.str "Memory allocation failure in bootloader module"),
                   ("reproductionSteps", Json.arr
                     [ Json.str "Initialize system with low memory configuration",
                       Json.str "Trigger firmware update sequence",
                       Json.str "Monitor memory allocation during boot phase" ]),
                   ("suggestedFix",
                     Json.str "Increase heap size allocation in bootloader config by 512KB"),
                   ("confidence", Json.num 94 0) ] } ∧
      (handleLogUploadResume file o s).results = (handleLogUpload (some file) o s).results := by
  cases o with
  | rejected => exact ⟨rfl, rfl⟩
  | badBody status => exact ⟨rfl, rfl⟩
  | parsed status data => simp [FetchOutcome.threw] at h

/-- Witness for C1: a rejected fetch for `boot.log` on the initial state. -/
theorem handleLogUpload_failure_stores_demo_witness :
    FetchOutcome.rejected.threw = true ∧
    (handleLogUpload (some { name := "boot.log", bytes := [1, 2] }) FetchOutcome.rejected
        State.init).results =
      some { type := "log", filename := "boot.log",
             data := Json.obj
               [ ("rootCause", Json.str "Memory allocation failure in bootloader module"),
                 ("reproductionSteps", Json.arr
                   [ Json.str "Initialize system with low memory configuration",
                     Json.str "Trigger firmware update sequence",
                     Json.str "Monitor memory allocation during boot phase" ]),
                 ("suggestedFix",
                   Json.str "Increase heap size allocation in bootloader config by 512KB"),
                 ("confidence", Json.num 94 0) ] } :=
  ⟨rfl, (handleLogUpload_failure_stores_demo State.init
    { name := "boot.log", bytes := [1, 2] } FetchOutcome.rejected rfl).1⟩

/-- C2: when the code-correction call throws, `handleCodeUpload` stores exactly
kind code, the file's name, issuesFound 3 and the three corrections for lines
42, 78 and 105 in that order. -/
theorem handleCodeUpload_failure_stores_demo (s : State) (file : File) (o : FetchOutcome)
    (h : o.threw = true) :
    (handleCodeUpload (some file) o s).results =
        some { type := "code", filename := file.name,
               data := Json.obj
                 [ ("issuesFound", Json.num 3 0),
                   ("corrections", Json.arr
                     [ Json.obj
                         [ ("line", Json.num 42 0),
                           ("issue", Json.str "Buffer overflow risk"),
                           ("fix", Json.str "Add bounds checking before memcpy") ],
                       Json.obj
                         [ ("line", Json.num 78 0),
                           ("issue", Json.str "Uninitialized pointer"),
                           ("fix", Json.str "Initialize ptr to NULL") ],
                       Json.obj
                         [ ("line", Json.num 105 0),
                           ("issue", Json.str "Memory leak"),
                           ("fix", Json.str "Add free() call before function return") ] ]),
                   ("fixedCode", Json.str "// Corrected code would appear here...") ] } ∧
      (handleCodeUploadResume file o s).results = (handleCodeUpload (some file) o s).results := by
  cases o with
  | rejected => exact ⟨rfl, rfl⟩
  | badBody status => exact ⟨rfl, rfl⟩
  | parsed status data => simp [FetchOutcome.threw] at h

/-- Witness for C2: an unparsable 200 response for `main.c`, over a state that
already holds a log result. -/
theorem handleCodeUpload_failure_stores_demo_witness :
    (FetchOutcome.badBody 200).threw = true ∧
    ((handleCodeUpload (some { name := "main.c", bytes := [] }) (FetchOutcome.badBody 200)
        { State.init with
          results := some { type := "log", data := Json.null, filename := "old.log" } }).results.map
      (fun r => (r.type, r.filename, r.data.get? "issuesFound"))) =
      some ("code", "main.c", some (Json.num 3 0)) :=
  ⟨rfl, by
    rw [(handleCodeUpload_failure_stores_demo
      { State.init with
        results := some { type := "log", data := Json.null, filename := "old.log" } }
      { name := "main.c", bytes := [] } (FetchOutcome.badBody 200) rfl).1]
    rfl⟩

/-- C3: for a description whose trimmed text is non-empty, when the
issue-analysis call throws, `handleJiraSubmit` stores a value whose
`similarIssues` is exactly the three entries FW-1234 / 92, FW-5678 / 87,
FW-9012 / 81, in that order. -/
theorem handleJiraSubmit_failure_similarIssues (s : State) (o : FetchOutcome)
    (hd : trimIsEmpty s.jiraDescription = false) (h : o.threw = true) :
    ((handleJiraSubmit o s).jiraResults.bind (fun v => v.get? "similarIssues")) =
        some (Json.arr
          [ Json.obj
              [ ("id", Json.str "FW-1234"),
                ("title", Json.str "Bootloader memory leak in v2.0"),
                ("similarity", Json.num 92 0) ],
            Json.obj
              [ ("id", Json.str "FW-5678"),
                ("title", Json.str "ARM device boot failure pattern"),
                ("similarity", Json.num 87 0) ],
            Json.obj
              [ ("id", Json.str "FW-9012"),
                ("title", Json.str "Memory corruption during OTA update"),
                ("similarity", Json.num 81 0) ] ]) ∧
      (handleJiraSubmitResume o s).jiraResults = (handleJiraSubmit o s).jiraResults := by
  have hs : handleJiraSubmitSync s =
      (setLoading true s, some (Pending.jiraSubmit s.jiraDescription)) := by
    simp [handleJiraSubmitSync, hd]
  cases o with
  | rejected => simp only [handleJiraSubmit, hs]; exact ⟨rfl, rfl⟩
  | badBody status => simp only [handleJiraSubmit, hs]; exact ⟨rfl, rfl⟩
  | parsed status data => simp [FetchOutcome.threw] at h

/-- Witness for C3: the description "boot loop" and a rejected fetch. -/
theorem handleJiraSubmit_failure_similarIssues_witness :
    trimIsEmpty "boot loop" = false ∧ FetchOutcome.rejected.threw = true ∧
    ((handleJiraSubmit FetchOutcome.rejected
        { State.init with activeTab := "jira", jiraDescription := "boot loop" }).jiraResults.bind
      (fun v => v.get? "similarIssues")) =
      some (Json.arr
        [ Json.obj
            [ ("id", Json.str "FW-1234"),
              ("title", Json.str "Bootloader memory leak in v2.0"),
              ("similarity", Json.num 92 0) ],
          Json.obj
            [ ("id", Json.str "FW-5678"),
              ("title", Json.str "ARM device boot failure pattern"),
              ("similarity", Json.num 87 0) ],
          Json.obj
            [ ("id", Json.str "FW-9012"),
              ("title", Json.str "Memory corruption during OTA update"),
              ("similarity", Json.num 81 0) ] ]) :=
  ⟨by decide, rfl,
    (handleJiraSubmit_failure_similarIssues
      { State.init with activeTab := "jira", jiraDescription := "boot loop" }
      FetchOutcome.rejected (by decide) rfl).1⟩

/-! ## Success path and frame conditions -/

/-- C4: for every file, every state and every response that is received and
parsed to `r` (whatever its status), `handleLogUpload` stores
`{type: "log", data: r, filename: file.name}` with `r` untouched and
`handleCodeUpload` the same with type "code"; both leave `activeTab`,
`jiraResults` and `jiraDescription` as they were and end with `loading`
false.  The same holds of the resumed part alone, on any state. -/
theorem upload_success_stores_response (s : State) (file : File) (status : Nat) (r : Json) :
    (handleLogUpload (some file) (FetchOutcome.parsed status r) s =
        { activeTab := s.activeTab, loading := false,
          results := some { type := "log", data := r, filename := file.name },
          jiraDescription := s.jiraDescription, jiraResults := s.jiraResults }) ∧
    (handleCodeUpload (some file) (FetchOutcome.parsed status r) s =
        { activeTab := s.activeTab, loading := false,
          results := some { type := "code", data := r, filename := file.name },
          jiraDescription := s.jiraDescription, jiraResults := s.jiraResults }) ∧
    (handleLogUploadResume file (FetchOutcome.parsed status r) s =
        handleLogUpload (some file) (FetchOutcome.parsed status r) s) ∧
    (handleCodeUploadResume file (FetchOutcome.parsed status r) s =
        handleCodeUpload (some file) (FetchOutcome.parsed status r) s) ∧
    (handleLogUploadSync (some file) s).1 = { s with loading := true } ∧
    (handleCodeUploadSync (some file) s).1 = { s with loading := true } :=
  ⟨rfl, rfl, rfl, rfl, rfl, rfl⟩

/-- C6: when the trimmed description is empty, `handleJiraSubmit` returns at
its first line: no handler is left suspended, hence no request is sent, the
state is the one before the call, and the submit button is rendered disabled. -/
theorem handleJiraSubmit_blank_noop (s : State) (h : trimIsEmpty s.jiraDescription = true) :
    handleJiraSubmitSync s = (s, none) ∧
    (∀ o : FetchOutcome, handleJiraSubmit o s = s) ∧
    (JiraView s).buttonDisabled = true := by
  have hs : handleJiraSubmitSync s = (s, none) := by simp [handleJiraSubmitSync, h]
  refine ⟨hs, ?_, ?_⟩
  · intro o
    simp [handleJiraSubmit, hs, runToEnd]
  · simp [JiraView, h]

/-- Witness for C6: the descriptions "" and "   ". -/
theorem handleJiraSubmit_blank_noop_witness :
    trimIsEmpty "" = true ∧ trimIsEmpty "   " = true ∧
    (handleJiraSubmitSync State.init).2.isNone = true ∧
    (handleJiraSubmitSync { State.init with activeTab := "jira", jiraDescription := "   " }).2.isNone
      = true :=
  ⟨by decide, by decide,
    by rw [(handleJiraSubmit_blank_noop State.init (by decide)).1]; rfl,
    by rw [(handleJiraSubmit_blank_noop
        { State.init with activeTab := "jira", jiraDescription := "   " } (by decide)).1]; rfl⟩

/-- C8: the `onClose` handler of `ResultsDisplay` empties `results`, so the
dashboard rendered next has no results panel; `jiraResults`, `activeTab`,
`loading` and `jiraDescription` keep their values. -/
theorem onClose_clears_results_only (s : State) :
    onClose s =
        { activeTab := s.activeTab, loading := s.loading, results := none,
          jiraDescription := s.jiraDescription, jiraResults := s.jiraResults } ∧
    (DashboardView (onClose s)).resultsPanel.isNone = true ∧
    (JiraView (onClose s)).resultsPanel = (JiraView s).resultsPanel :=
  ⟨rfl, rfl, rfl⟩

/-- C10: `setActiveTab` is total, sets `activeTab` to its target and changes
no other cell, for the two targets the click handlers pass and for any other;
applied twice it gives what it gives applied once; and the component renders
the dashboard exactly when `activeTab` is "dashboard" and the Jira view
otherwise. -/
theorem setActiveTab_navigates (s : State) (target : String) :
    setActiveTab target s =
        { activeTab := target, loading := s.loading, results := s.results,
          jiraDescription := s.jiraDescription, jiraResults := s.jiraResults } ∧
    setActiveTab target (setActiveTab target s) = setActiveTab target s ∧
    openAnalyzerClick s = setActiveTab "jira" s ∧
    backToDashboardClick s = setActiveTab "dashboard" s ∧
    render (backToDashboardClick s) = View.dashboard (DashboardView (backToDashboardClick s)) ∧
    render (openAnalyzerClick s) = View.jira (JiraView (openAnalyzerClick s)) ∧
    ((render s = View.dashboard (DashboardView s)) ↔ s.activeTab = "dashboard") ∧
    ((render s = View.jira (JiraView s)) ↔ s.activeTab ≠ "dashboard") := by
  refine ⟨rfl, rfl, rfl, rfl, rfl, rfl, ?_, ?_⟩
  · by_cases h : s.activeTab = "dashboard" <;> simp [render, h]
  · by_cases h : s.activeTab = "dashboard" <;> simp [render, h]

/-! ## Failure outcomes -/

/-- C7, as stated, fails: a 500 response whose body parses is a failure in the
words of the specification, yet `handleLogUpload` stores the parsed body, not
the demo payload. -/
theorem specFailure_not_always_fallback :
    specFailure (FetchOutcome.parsed 500 (Json.obj [("error", Json.str "Internal Server Error")]))
      = true ∧
    (handleLogUpload (some { name := "boot.log", bytes := [] })
        (FetchOutcome.parsed 500 (Json.obj [("error", Json.str "Internal Server Error")]))
        State.init).results =
      some { type := "log", filename := "boot.log",
             data := Json.obj [("error", Json.str "Internal Server Error")] } ∧
    (handleLogUpload (some { name := "boot.log", bytes := [] })
        (FetchOutcome.parsed 500 (Json.obj [("error", Json.str "Internal Server Error")]))
        State.init).results ≠
      some { type := "log", filename := "boot.log", data := logDemoData } := by
  refine ⟨by decide, rfl, ?_⟩
  intro h
  simp [handleLogUpload, handleLogUploadSync, runToEnd, Pending.resume, handleLogUploadResume,
    setResults, setLoading, State.init, logDemoData] at h

/-- C7 amended: for each of the three handlers, every outcome in which the
`try` block throws (the fetch rejects, or the body does not parse, whatever
the status) stores the handler's demo payload; a response whose body parses is
stored as received whatever its status, 4xx and 5xx included. -/
theorem thrown_outcome_stores_fallback (s : State) (file : File) (o : FetchOutcome)
    (h : o.threw = true) :
    (handleLogUploadResume file o s).results =
        some { type := "log", filename := file.name, data := logDemoData } ∧
    (handleCodeUploadResume file o s).results =
        some { type := "code", filename := file.name, data := codeDemoData } ∧
    (handleJiraSubmitResume o s).jiraResults = some jiraDemoData ∧
    (∀ (status : Nat) (data : Json),
      (handleLogUploadResume file (FetchOutcome.parsed status data) s).results =
          some { type := "log", data := data, filename := file.name } ∧
      (handleCodeUploadResume file (FetchOutcome.parsed status data) s).results =
          some { type := "code", data := data, filename := file.name } ∧
      (handleJiraSubmitResume (FetchOutcome.parsed status data) s).jiraResults = some data) := by
  cases o with
  | rejected => exact ⟨rfl, rfl, rfl, fun _ _ => ⟨rfl, rfl, rfl⟩⟩
  | badBody status => exact ⟨rfl, rfl, rfl, fun _ _ => ⟨rfl, rfl, rfl⟩⟩
  | parsed status data => simp [FetchOutcome.threw] at h

/-- Witness for the amended C7: a 502 response whose body does not parse. -/
theorem thrown_outcome_stores_fallback_witness :
    (FetchOutcome.badBody 502).threw = true ∧
    (handleJiraSubmitResume (FetchOutcome.badBody 502) State.init).jiraResults =
      some jiraDemoData :=
  ⟨rfl, (thrown_outcome_stores_fallback State.init { name := "a.log", bytes := [] }
    (FetchOutcome.badBody 502) rfl).2.2.1⟩

/-! ## The busy indicator -/

/-- C9, as stated, fails: after the first log upload is dispatched from the
initial state `loading` is true, yet both file inputs of the dashboard are
enabled and show "Upload File". -/
theorem loading_true_dashboard_inputs_enabled :
    ((run Session.init [Event.logFileChange (some { name := "boot.log", bytes := [] })]).map
      (fun σ =>
        (σ.state.loading, σ.state.activeTab,
          (DashboardView σ.state).logCard.inputDisabled,
          (DashboardView σ.state).logCard.caption,
          (DashboardView σ.state).codeCard.inputDisabled,
          (DashboardView σ.state).codeCard.caption))) =
      some (true, "dashboard", some false, "Upload File", some false, "Upload File") := by
  decide

/-- C9 amended: each upload card has its own busy gate.  On a card the three
attributes move together: the input is disabled exactly when the spinner is
shown, and the caption is "Analyzing..." then and "Upload File" otherwise.  A
card is busy only while `loading` is true, and the log card and the code card
are never busy together.  In the Jira view a true `loading` disables the
submit button and shows the spinner and "Analyzing...".  With `loading` false
both file inputs are enabled and show "Upload File" without a spinner, and the
Jira button shows "Analyze Issue" without a spinner. -/
theorem busy_indicator_gating (s : State) :
    ((DashboardView s).logCard.inputDisabled = some (DashboardView s).logCard.spinner) ∧
    ((DashboardView s).logCard.caption =
      if (DashboardView s).logCard.spinner = true then "Analyzing..." else "Upload File") ∧
    ((DashboardView s).codeCard.inputDisabled = some (DashboardView s).codeCard.spinner) ∧
    ((DashboardView s).codeCard.caption =
      if (DashboardView s).codeCard.spinner = true then "Analyzing..." else "Upload File") ∧
    ((DashboardView s).logCard.spinner = true → s.loading = true) ∧
    ((DashboardView s).codeCard.spinner = true → s.loading = true) ∧
    ¬ ((DashboardView s).logCard.spinner = true ∧ (DashboardView s).codeCard.spinner = true) ∧
    (s.loading = true →
      (JiraView s).buttonDisabled = true ∧
      (JiraView s).buttonSpinner = true ∧
      (JiraView s).buttonCaption = "Analyzing...") ∧
    (s.loading = false →
      (DashboardView s).logCard.inputDisabled = some false ∧
      (DashboardView s).logCard.spinner = false ∧
      (DashboardView s).logCard.caption = "Upload File" ∧
      (DashboardView s).codeCard.inputDisabled = some false ∧
      (DashboardView s).codeCard.spinner = false ∧
      (DashboardView s).codeCard.caption = "Upload File" ∧
      (JiraView s).buttonSpinner = false ∧
      (JiraView s).buttonCaption = "Analyze Issue") := by
  obtain ⟨tab, loading, results, text, jr⟩ := s
  have hne : ∀ a : String, ¬ (a = "log" ∧ a = "code") := by
    rintro a ⟨h1, h2⟩
    rw [h1] at h2
    exact absurd h2 (by decide)
  cases loading <;> cases results with
  | none => simp [DashboardView, JiraView, FeatureCard, resultsTypeIs]
  | some r =>
    have := hne r.type
    by_cases h1 : r.type = "log" <;> by_cases h2 : r.type = "code" <;>
      simp_all [DashboardView, JiraView, FeatureCard, resultsTypeIs]

/-- Witness for the amended C9: a Jira view with `loading` true, and the
initial state, where `loading` is false. -/
theorem busy_indicator_gating_witness :
    ({ State.init with activeTab := "jira", loading := true,
                       jiraDescription := "boot loop" } : State).loading = true ∧
    ((JiraView { State.init with activeTab := "jira", loading := true,
                                 jiraDescription := "boot loop" }).buttonDisabled = true ∧
      (JiraView { State.init with activeTab := "jira", loading := true,
                                  jiraDescription := "boot loop" }).buttonSpinner = true ∧
      (JiraView { State.init with activeTab := "jira", loading := true,
                                  jiraDescription := "boot loop" }).buttonCaption
        = "Analyzing...") ∧
    State.init.loading = false ∧
    (DashboardView State.init).logCard.inputDisabled = some false ∧
    (DashboardView State.init).codeCard.inputDisabled = some false :=
  ⟨rfl,
    (busy_indicator_gating { State.init with activeTab := "jira", loading := true,
                                             jiraDescription := "boot loop" }).2.2.2.2.2.2.2.1 rfl,
    rfl,
    ((busy_indicator_gating State.init).2.2.2.2.2.2.2.2 rfl).1,
    ((busy_indicator_gating State.init).2.2.2.2.2.2.2.2 rfl).2.2.2.1⟩

/-! ## `loading` and the requests in flight -/

/-- Every continuation ends in `finally { setLoading(false) }`. -/
theorem resume_loading (p : Pending) (o : FetchOutcome) (s : State) :
    (p.resume o s).loading = false := by
  cases p <;> cases o <;> rfl

/-- A synchronous part either changes nothing and suspends nothing, or sets
`loading` and suspends one handler. -/
theorem handleLogUploadSync_cases (file : Option File) (s : State) :
    handleLogUploadSync file s = (s, none) ∨
      ∃ p, handleLogUploadSync file s = (setLoading true s, some p) := by
  cases file with
  | none => exact Or.inl rfl
  | some f => exact Or.inr ⟨_, rfl⟩

theorem handleCodeUploadSync_cases (file : Option File) (s : State) :
    handleCodeUploadSync file s = (s, none) ∨
      ∃ p, handleCodeUploadSync file s = (setLoading true s, some p) := by
  cases file with
  | none => exact Or.inl rfl
  | some f => exact Or.inr ⟨_, rfl⟩

theorem handleJiraSubmitSync_cases (s : State) :
    handleJiraSubmitSync s = (s, none) ∨
      ∃ p, handleJiraSubmitSync s = (setLoading true s, some p) := by
  unfold handleJiraSubmitSync
  split
  · exact Or.inl rfl
  · exact Or.inr ⟨_, rfl⟩

/-- The shapes a fired event can have, as far as `loading` and the list of
suspended handlers go. -/
theorem fire_cases (σ : Session) (e : Event) (he : enabled σ e = true) :
    ((fire σ e).state.loading = σ.state.loading ∧ (fire σ e).inflight = σ.inflight) ∨
    (∃ p, (fire σ e).state.loading = true ∧ (fire σ e).inflight = σ.inflight ++ [p]) ∨
    (∃ i, i < σ.inflight.length ∧ (fire σ e).state.loading = false ∧
      (fire σ e).inflight = σ.inflight.eraseIdx i) := by
  cases e with
  | logFileChange file =>
    rcases handleLogUploadSync_cases file σ.state with h | ⟨p, h⟩
    · left; simp [fire, Session.afterSync, h]
    · right; left; exact ⟨p, by simp [fire, Session.afterSync, h, setLoading]⟩
  | codeFileChange file =>
    rcases handleCodeUploadSync_cases file σ.state with h | ⟨p, h⟩
    · left; simp [fire, Session.afterSync, h]
    · right; left; exact ⟨p, by simp [fire, Session.afterSync, h, setLoading]⟩
  | analyzeIssueClick =>
    rcases handleJiraSubmitSync_cases σ.state with h | ⟨p, h⟩
    · left; simp [fire, Session.afterSync, h]
    · right; left; exact ⟨p, by simp [fire, Session.afterSync, h, setLoading]⟩
  | openAnalyzer => left; exact ⟨rfl, rfl⟩
  | backToDashboard => left; exact ⟨rfl, rfl⟩
  | descriptionChange text => left; exact ⟨rfl, rfl⟩
  | closeResults => left; exact ⟨rfl, rfl⟩
  | settle index o =>
    have hi : index < σ.inflight.length := by simpa [enabled] using he
    right; right
    refine ⟨index, hi, ?_, ?_⟩
    · simp [fire, List.getElem?_eq_getElem hi, resume_loading]
    · simp [fire, List.getElem?_eq_getElem hi]

/-- One step keeps: a true `loading` has a request in flight. -/
theorem step_loading_outstanding (σ σ1 : Session) (e : Event) (hs : step σ e = some σ1)
    (inv : σ.state.loading = true → σ.outstanding = true) :
    σ1.state.loading = true → σ1.outstanding = true := by
  unfold step at hs
  split at hs
  · rename_i he
    cases hs
    rcases fire_cases σ e he with ⟨hl, hi⟩ | ⟨p, _, hi⟩ | ⟨i, _, hl, _⟩
    · intro h
      have := inv (hl ▸ h)
      simpa [Session.outstanding, hi] using this
    · intro _
      simp [Session.outstanding, hi]
    · intro h
      rw [hl] at h
      cases h
  · cases hs

/-- One step that ends with at most one request in flight keeps: at most one
request is in flight, and `loading` is true exactly when one is. -/
theorem step_sequential (σ σ1 : Session) (e : Event) (hs : step σ e = some σ1)
    (h1 : σ1.inflight.length ≤ 1)
    (inv : σ.inflight.length ≤ 1 ∧ (σ.state.loading = true ↔ σ.outstanding = true)) :
    σ1.state.loading = true ↔ σ1.outstanding = true := by
  unfold step at hs
  split at hs
  · rename_i he
    cases hs
    rcases fire_cases σ e he with ⟨hl, hi⟩ | ⟨p, hl, hi⟩ | ⟨i, hlt, hl, hi⟩
    · rw [hl, inv.2]
      simp [Session.outstanding, hi]
    · simp [Session.outstanding, hi, hl]
    · have hlen : σ.inflight.length = 1 := by have := inv.1; omega
      have hnil : (fire σ e).inflight = [] := by
        apply List.eq_nil_of_length_eq_zero
        rw [hi, List.length_eraseIdx, if_pos hlt, hlen]
      simp [Session.outstanding, hnil, hl]
  · cases hs

theorem neverOverlaps_head (σ : Session) (es : List Event) (h : neverOverlaps σ es = true) :
    σ.inflight.length ≤ 1 := by
  cases es with
  | nil => simpa [neverOverlaps] using h
  | cons e es =>
    simp only [neverOverlaps, Bool.and_eq_true, decide_eq_true_eq] at h
    exact h.1

theorem run_loading_outstanding (es : List Event) (σ0 σ : Session) (hr : run σ0 es = some σ)
    (inv : σ0.state.loading = true → σ0.outstanding = true) :
    σ.state.loading = true → σ.outstanding = true := by
  induction es generalizing σ0 with
  | nil =>
    simp only [run, Option.some.injEq] at hr
    subst hr
    exact inv
  | cons e es ih =>
    simp only [run] at hr
    cases hs : step σ0 e with
    | none => simp [hs] at hr
    | some σ1 =>
      simp only [hs] at hr
      exact ih σ1 hr (step_loading_outstanding σ0 σ1 e hs inv)

theorem run_sequential (es : List Event) (σ0 σ : Session) (hr : run σ0 es = some σ)
    (hn : neverOverlaps σ0 es = true)
    (inv : σ0.state.loading = true ↔ σ0.outstanding = true) :
    σ.state.loading = true ↔ σ.outstanding = true := by
  induction es generalizing σ0 with
  | nil =>
    simp only [run, Option.some.injEq] at hr
    subst hr
    exact inv
  | cons e es ih =>
    have h0 := neverOverlaps_head σ0 (e :: es) hn
    simp only [run] at hr
    cases hs : step σ0 e with
    | none => simp [hs] at hr
    | some σ1 =>
      simp only [hs] at hr
      simp only [neverOverlaps, hs, Bool.and_eq_true, decide_eq_true_eq] at hn
      have h1 := neverOverlaps_head σ1 es hn.2
      exact ih σ1 hr hn.2 (step_sequential σ0 σ1 e hs h1 ⟨h0, inv⟩)

/-- C5, as stated, fails: a log upload and then a code upload are dispatched
from the initial state (the code card is not disabled), the log request
fails, and `loading` is false while the code request is still in flight. -/
theorem loading_false_with_request_in_flight :
    ((run Session.init
        [ Event.logFileChange (some { name := "boot.log", bytes := [] }),
          Event.codeFileChange (some { name := "main.c", bytes := [] }),
          Event.settle 0 FetchOutcome.rejected ]).map
      (fun σ => (σ.state.loading, σ.outstanding, σ.inflight.length,
        σ.inflight.map (fun p => p.request.url)))) =
      some (false, true, 1, ["/api/correct-code"]) := by
  decide

/-- C5 amended: in every state reached from the initial one by any run of
events, a true `loading` means that a request is in flight, so `loading` is
false whenever none is; and on every run along which no two requests are in
flight together, `loading` is true exactly when a request is in flight. -/
theorem loading_tracks_inflight (es : List Event) (σ : Session)
    (hr : run Session.init es = some σ) :
    (σ.state.loading = true → σ.outstanding = true) ∧
    (neverOverlaps Session.init es = true →
      (σ.state.loading = true ↔ σ.outstanding = true)) :=
  ⟨run_loading_outstanding es Session.init σ hr (by intro h; cases h),
   fun hn => run_sequential es Session.init σ hr hn (by decide)⟩

/-- Witness for the amended C5: after one log upload is dispatched from the
initial state, `loading` is true and the request is in flight. -/
theorem loading_tracks_inflight_witness :
    run Session.init [Event.logFileChange (some { name := "boot.log", bytes := [] })] =
        some { state := { State.init with loading := true },
               inflight := [Pending.logUpload { name := "boot.log", bytes := [] }] } ∧
    neverOverlaps Session.init
        [Event.logFileChange (some { name := "boot.log", bytes := [] })] = true ∧
    (({ state := { State.init with loading := true },
        inflight := [Pending.logUpload { name := "boot.log", bytes := [] }] } :
          Session).state.loading = true ↔
      ({ state := { State.init with loading := true },
         inflight := [Pending.logUpload { name := "boot.log", bytes := [] }] } :
          Session).outstanding = true) :=
  ⟨rfl, by decide,
    (loading_tracks_inflight
      [Event.logFileChange (some { name := "boot.log", bytes := [] })]
      { state := { State.init with loading := true },
        inflight := [Pending.logUpload { name := "boot.log", bytes := [] }] } rfl).2 (by decide)⟩

end FirmwareHealer
